import Mathlib

/-!
# Verification of the DevOps CLI rollback / log-tailing tool

Shallow embedding of `sample-demo/scripts/dev-cli.py` (class `DevOpsCLI`).
The effectful collaborators (aws, kubectl, helm, terminal input) are modelled
by explicit inputs collected in a `World` record; each method of the class
becomes a pure Lean function of that record, returning its outcome together
with the chronological trace of external commands, prompts and leveled
(success/warning/error) reports it emits.
-/

/-- `RevisionRecord`: one entry of `helm history` as consumed by
`rollback_release` (fields `revision`, `description`, `updated`). Revisions
are Python ints, modelled as `Int`. -/
structure RevisionRecord where
  revision : Int
  description : String
  updated : String
deriving Repr, DecidableEq

/-- One entry of `helm list` as consumed by `rollback_release`
(fields `name`, `revision`). -/
structure Release where
  name : String
  revision : Int
deriving Repr, DecidableEq

/-- A pod as consumed by the CLI: `metadata.name` and `status.phase`. -/
structure Pod where
  name : String
  phase : String
deriving Repr, DecidableEq

/-- `self.app_name = "sample-app"` (DevOpsCLI.__init__). -/
def app_name : String := "sample-app"

/-- `self.valid_environments = ["dev", "stage", "prod"]` (DevOpsCLI.__init__). -/
def valid_environments : List String := ["dev", "stage", "prod"]

/-- The projection `[h["revision"] for h in history]` (dev-cli.py line 256);
also the multiset of revision numbers occurring in a history. -/
def revisions (history : List RevisionRecord) : List Int :=
  history.map (·.revision)

/-- The sort key order of `sorted(history, key=lambda x: x["revision"],
reverse=True)` (dev-cli.py line 247): `p` comes no later than `q` iff
`p.revision ≥ q.revision`. -/
def revGE (p q : RevisionRecord) : Prop := q.revision ≤ p.revision

instance : DecidableRel revGE := fun p q =>
  inferInstanceAs (Decidable (q.revision ≤ p.revision))

instance : IsTotal RevisionRecord revGE := ⟨fun a b => le_total b.revision a.revision⟩

instance : IsTrans RevisionRecord revGE := ⟨fun _ _ _ h₁ h₂ => le_trans h₂ h₁⟩

/-- `sorted(history, key=lambda x: x["revision"], reverse=True)`
(dev-cli.py line 247). Python's `sorted` is stable and `reverse=True` keeps
equal keys in original order, which is exactly a stable insertion sort under
`revGE` (ties are not moved past earlier-occurring equal elements). -/
def sortByRevisionDesc (history : List RevisionRecord) : List RevisionRecord :=
  List.insertionSort revGE history

/-- The two validation failures of the revision-resolution step:
"No previous revisions available for rollback" / "No previous revision found"
(lines 240-242 and 250-252) and "Revision r not found. Available: [...]"
(lines 257-259). -/
inductive ResolveError
  | NoPriorRevision
  | UnknownRevision (r : Int) (available : List Int)
deriving Repr, DecidableEq

/-- The revision-resolution step of `rollback_release` (dev-cli.py lines
240-259), extracted as the pure function of the history and the optional
explicit `--revision` argument:
* line 240: with no explicit revision, a history of fewer than 2 entries is
  rejected ("No previous revisions available for rollback");
* lines 245-252: otherwise, with no explicit revision, the target is
  `sorted_history[1]["revision"]` of the stable descending sort;
* lines 253-259: an explicit revision is accepted iff it occurs in
  `[h["revision"] for h in history]`; otherwise the error reports that list. -/
def resolveTarget (history : List RevisionRecord) (explicit : Option Int) :
    Except ResolveError Int :=
  match explicit with
  | none =>
    if history.length < 2 then .error .NoPriorRevision
    else
      match (sortByRevisionDesc history)[1]? with
      | some entry => .ok entry.revision
      | none => .error .NoPriorRevision
  | some r =>
    if r ∈ revisions history then .ok r
    else .error (.UnknownRevision r (revisions history))

example : resolveTarget [⟨3, "d3", "t3"⟩, ⟨2, "d2", "t2"⟩, ⟨1, "d1", "t1"⟩] none =
    .ok 2 := rfl

example : resolveTarget [⟨1, "d1", "t1"⟩] none = .error .NoPriorRevision := rfl

example : resolveTarget [⟨1, "d1", "t1"⟩, ⟨2, "d2", "t2"⟩] (some 5) =
    .error (.UnknownRevision 5 [1, 2]) := rfl

example : resolveTarget [⟨3, "a", "x"⟩, ⟨3, "b", "y"⟩] none = .ok 3 := rfl

example : resolveTarget [⟨5, "a", "x"⟩, ⟨5, "b", "y"⟩, ⟨3, "c", "z"⟩] none =
    .ok 5 := rfl

/-- Abstract result of the kubectl pod query plus JSON decode, as `get_pods`
(dev-cli.py lines 88-107) observes it:
* `cmdFailed`: `run_command` returned `None` (non-zero exit or missing
  executable), or produced an empty captured body (falsy, and in any case
  undecodable as JSON);
* `parseFailed`: `json.loads` raised `JSONDecodeError` on the body;
* `decoded items`: the body decoded to an object; `items` is the value of its
  `"items"` key when present (`data.get("items", [])` defaults to `[]`). -/
inductive PodsQueryResult
  | cmdFailed
  | parseFailed
  | decoded (items : Option (List Pod))
deriving Repr, DecidableEq

/-- `get_pods` (dev-cli.py lines 88-107): returns the decoded item list
(`data.get("items", [])`) on success, `None` on command failure or on a body
that fails JSON decoding. -/
def get_pods : PodsQueryResult → Option (List Pod)
  | .cmdFailed => none
  | .parseFailed => none
  | .decoded items => some (items.getD [])

/-- Outcome of the pod-selection step of `tail_logs` (dev-cli.py lines
124-149), run when no explicit pod name was given. -/
inductive SelectResult
  | noPods
  | selected (name : String)
  | invalidSelection
  | cancelled
deriving Repr, DecidableEq

/-- The pod-selection step of `tail_logs` (dev-cli.py lines 124-149).
`pods?` is the `get_pods` result (`None` on failure); `userInput` is the
interactive index: `none` models a `ValueError` from `int(input(...))` or a
`KeyboardInterrupt`, `some i` a parsed integer. Returns the selection outcome
together with the enumerated list presented to the user (`enumerate(pods)`,
lines 136-138; empty when no disambiguation prompt is shown):
* `if not pods` (line 127): `None` or `[]` → "No pods found" error;
* exactly one pod (line 131): auto-selected;
* otherwise: present the enumerated list; a choice with
  `0 <= choice < len(pods)` (line 142) selects `pods[choice]`, any other
  integer is "Invalid selection", non-integer input or interrupt cancels. -/
def selectPod (pods? : Option (List Pod)) (userInput : Option Int) :
    SelectResult × List (Nat × Pod) :=
  match pods? with
  | none => (.noPods, [])
  | some [] => (.noPods, [])
  | some [p] => (.selected p.name, [])
  | some (p₀ :: p₁ :: rest) =>
    let pods := p₀ :: p₁ :: rest
    let presented := pods.enum
    match userInput with
    | none => (.cancelled, presented)
    | some choice =>
      if 0 ≤ choice ∧ choice < (pods.length : Int) then
        match pods[choice.toNat]? with
        | some p => (.selected p.name, presented)
        | none => (.invalidSelection, presented)
      else (.invalidSelection, presented)

/-- The pod `tail_logs` goes on to stream from, or `none` when the operation
terminates without streaming: an explicit `--pod` name is used as given
(line 125); otherwise the selection step must succeed. -/
def tail_logs_target (pods? : Option (List Pod)) (explicitPod : Option String)
    (userInput : Option Int) : Option String :=
  match explicitPod with
  | some name => some name
  | none =>
    match (selectPod pods? userInput).1 with
    | .selected name => some name
    | _ => none

/-- `run_command` in non-capture mode (dev-cli.py lines 50-69, called with
`capture_output=False`). The argument is the spawned command's result (exit
0 or not); the return value is `None` in every case: the success path (lines
57-59) runs the command and then executes `return None`, and both exception
handlers (lines 60-69) also return `None`. Only the `capture_output=True`
mode, used by `get_pods` and the release inspectors, ever returns a string. -/
def run_command_plain (_cmdOk : Bool) : Option String := none

/-- `update_kubeconfig` (dev-cli.py lines 78-86): runs the aws command and
returns `self.run_command(command) is not None`. Because `run_command` is
called in non-capture mode and therefore returns `None` even when the
command succeeds, this is `false` for every command result. -/
def update_kubeconfig (cmdOk : Bool) : Bool := (run_command_plain cmdOk).isSome

/-- The results of the external collaborators and of the terminal, as one
invocation of `rollback_release` observes them:
* `kubeconfigOk`: whether the spawned `aws eks update-kubeconfig` command
  exited successfully (`update_kubeconfig` discards this: it tests the
  always-`None` return value of the non-capture `run_command`);
* `releases`: the decoded `helm list` output (`none`: command or JSON
  failure);
* `history`: the decoded `helm history` output (`none`: command or JSON
  failure);
* `confirmAnswer`: the interactive answer at the confirmation prompt
  (`none` models a `KeyboardInterrupt`);
* `rollbackOk`: whether the spawned `helm rollback` command exited
  successfully (the line 284 guard likewise discards this);
* `waitOk`: whether `kubectl rollout status --timeout=300s` exited
  successfully (the line 294 guard likewise discards this);
* `finalPods`: the `get_pods` snapshot taken for the final report. -/
structure World where
  kubeconfigOk : Bool
  releases : Option (List Release)
  history : Option (List RevisionRecord)
  confirmAnswer : Option String
  rollbackOk : Bool
  waitOk : Bool
  finalPods : Option (List Pod)
deriving Repr, DecidableEq

/-- One observable step of `rollback_release`, in chronological order:
external command invocations (with their success flag where the code
branches on it), the confirmation prompt, and the leveled SUCCESS / WARNING /
ERROR reports. INFO-level logs are not recorded. -/
inductive Event
  | cmdKubeconfig (ok : Bool)
  | cmdListReleases
  | cmdHistory
  | promptConfirm
  | cmdRollback (target : Int) (ok : Bool)
  | cmdRolloutWait (ok : Bool)
  | cmdGetPods
  | logSuccess (msg : String)
  | logWarning (msg : String)
  | logError (msg : String)
deriving Repr, DecidableEq

/-- The terminal outcome of one `rollback_release` invocation, one
constructor per distinct exit point of dev-cli.py lines 200-308. -/
inductive Outcome
  | invalidEnv
  | bindFailed
  | noReleases
  | releaseNotFound
  | historyUnavailable
  | resolveFailed (e : ResolveError)
  | cancelled
  | rollbackFailed
  | convergenceWarning
  | done (finalPods : Option (List Pod))
deriving Repr, DecidableEq

/-- The error text logged when `resolveTarget` fails (lines 241, 251, 258). -/
def resolveErrorMsg : ResolveError → String
  | .NoPriorRevision => "No previous revisions available for rollback"
  | .UnknownRevision _ _ => "Revision not found"

/-- Lines 280-308 of dev-cli.py, as written: run `helm rollback` to the
resolved target; line 284 guards the success path with
`self.run_command(command) is not None` on the non-capture `run_command`,
i.e. `(run_command_plain w.rollbackOk).isSome`, and line 294 guards the
convergence result the same way. Because the non-capture `run_command`
returns `None` even on success, both guards are constantly false: the
SUCCESS/WARNING reporting written at lines 285-306 is dead code, and every
invocation — including one whose `helm rollback` succeeded — takes the
line 308 branch and logs the hard "Rollback failed" ERROR. -/
def executeRollback (w : World) (target : Int) : Outcome × List Event :=
  if (run_command_plain w.rollbackOk).isSome then
    if (run_command_plain w.waitOk).isSome then
      (.done w.finalPods,
        [.cmdRollback target w.rollbackOk,
         .logSuccess "Rollback initiated successfully",
         .cmdRolloutWait w.waitOk,
         .logSuccess "Rollback completed successfully",
         .cmdGetPods])
    else
      (.convergenceWarning,
        [.cmdRollback target w.rollbackOk,
         .logSuccess "Rollback initiated successfully",
         .cmdRolloutWait w.waitOk,
         .logWarning "Rollback may have failed - check deployment status"])
  else
    (.rollbackFailed,
      [.cmdRollback target w.rollbackOk, .logError "Rollback failed"])

/-- Prepend an already-emitted trace to the result of a later phase. -/
def prepend (pre : List Event) (r : Outcome × List Event) : Outcome × List Event :=
  (r.1, pre ++ r.2)

/-- `response.lower()` (dev-cli.py line 273). Python's `str.lower` modelled
character-wise (structural recursion over the character list, so that it
evaluates in the kernel); for the single comparison the code performs —
equality with `"y"` — this agrees with full Unicode lower-casing. -/
def lower (s : String) : String := String.mk (s.data.map Char.toLower)

/-- `response.lower() == 'y'` (dev-cli.py line 273) on the optional answer;
`none` (an interrupt) is never affirmative. -/
def affirmative : Option String → Bool
  | none => false
  | some s => lower s == "y"

/-- `rollback_release` (dev-cli.py lines 200-308) as a function of the
observed collaborator results `w` and the CLI arguments, returning the
terminal outcome and the chronological event trace:
* lines 203-204: invalid environment → return;
* lines 212-213: `update_kubeconfig` is tested; since it returns `false`
  for every command result (its non-capture `run_command` returns `None`
  even on success), every run past environment validation returns here and
  the remainder of the function (lines 216-308) is dead code, translated
  below as written;
* lines 216-229: `helm list` falsy (`None`/empty) → "No Helm releases
  found"; no entry named `app_name` → "release not found";
* lines 235-238: `helm history` falsy → "Could not get release history";
* lines 240-259: revision resolution (`resolveTarget`);
* lines 269-278: unless `--confirm` was passed, prompt; a non-"y" answer or
  interrupt cancels before any rollback command;
* lines 280-308: `executeRollback`.
The namespace argument only parameterises the spawned command lines, which
the event model does not record, so it is not a parameter here. -/
def rollback_release (w : World) (environment : String) (revision : Option Int)
    (confirm : Bool) : Outcome × List Event :=
  if environment ∈ valid_environments then
    if update_kubeconfig w.kubeconfigOk then
      match w.releases with
      | none =>
        (.noReleases, [.cmdKubeconfig w.kubeconfigOk, .cmdListReleases,
          .logError "No Helm releases found"])
      | some [] =>
        (.noReleases, [.cmdKubeconfig w.kubeconfigOk, .cmdListReleases,
          .logError "No Helm releases found"])
      | some (rel :: rels) =>
        match (rel :: rels).find? (fun x => x.name == app_name) with
        | none =>
          (.releaseNotFound, [.cmdKubeconfig w.kubeconfigOk, .cmdListReleases,
            .logError "Helm release not found"])
        | some _ =>
          match w.history with
          | none =>
            (.historyUnavailable, [.cmdKubeconfig w.kubeconfigOk, .cmdListReleases,
              .cmdHistory, .logError "Could not get release history"])
          | some [] =>
            (.historyUnavailable, [.cmdKubeconfig w.kubeconfigOk, .cmdListReleases,
              .cmdHistory, .logError "Could not get release history"])
          | some (h :: hs) =>
            match resolveTarget (h :: hs) revision with
            | .error e =>
              (.resolveFailed e, [.cmdKubeconfig w.kubeconfigOk, .cmdListReleases,
                .cmdHistory, .logError (resolveErrorMsg e)])
            | .ok target =>
              if confirm then
                prepend [.cmdKubeconfig w.kubeconfigOk, .cmdListReleases, .cmdHistory]
                  (executeRollback w target)
              else
                match w.confirmAnswer with
                | none =>
                  (.cancelled, [.cmdKubeconfig w.kubeconfigOk, .cmdListReleases,
                    .cmdHistory, .promptConfirm,
                    .logWarning "Operation cancelled"])
                | some resp =>
                  if lower resp == "y" then
                    prepend [.cmdKubeconfig w.kubeconfigOk, .cmdListReleases, .cmdHistory,
                      .promptConfirm] (executeRollback w target)
                  else
                    (.cancelled, [.cmdKubeconfig w.kubeconfigOk, .cmdListReleases,
                      .cmdHistory, .promptConfirm,
                      .logWarning "Rollback cancelled"])
    else (.bindFailed, [.cmdKubeconfig w.kubeconfigOk])
  else (.invalidEnv, [.logError "Invalid environment"])

example :
    rollback_release
      ⟨true, some [⟨"sample-app", 3⟩], some [⟨3, "d3", "t3"⟩, ⟨2, "d2", "t2"⟩],
        some "y", true, true, some [⟨"pod-1", "Running"⟩]⟩
      "dev" none false = (.bindFailed, [.cmdKubeconfig true]) := by decide

example :
    (rollback_release
      ⟨true, some [⟨"sample-app", 3⟩], some [⟨3, "d3", "t3"⟩, ⟨2, "d2", "t2"⟩],
        some "n", true, true, some []⟩
      "qa" none false).1 = .invalidEnv := by decide

/-! ## Helper lemmas about the descending sort and the resolver -/

theorem sortByRevisionDesc_perm (H : List RevisionRecord) :
    List.Perm (sortByRevisionDesc H) H :=
  List.perm_insertionSort revGE H

theorem sortByRevisionDesc_sorted (H : List RevisionRecord) :
    List.Sorted revGE (sortByRevisionDesc H) :=
  List.sorted_insertionSort revGE H

/-- Any revision `resolveTarget` returns occurs in the history it was given. -/
theorem resolveTarget_mem (H : List RevisionRecord) (e : Option Int) (t : Int)
    (h : resolveTarget H e = .ok t) : t ∈ revisions H := by
  cases e with
  | none =>
    simp only [resolveTarget] at h
    split at h
    · exact Except.noConfusion h
    · split at h
      next entry heq =>
        injection h with h'
        subst h'
        exact List.mem_map_of_mem _
          ((sortByRevisionDesc_perm H).mem_iff.mp (List.getElem?_mem heq))
      next => exact Except.noConfusion h
  | some r =>
    simp only [resolveTarget] at h
    split at h
    next hr => injection h with h'; subst h'; exact hr
    next => exact Except.noConfusion h

/-- `update_kubeconfig` is `false` for every command result: the non-capture
`run_command` returns `None` even when the aws command succeeds. -/
theorem update_kubeconfig_always_false (b : Bool) : update_kubeconfig b = false :=
  rfl

/-- Every `rollback_release` run on a valid environment returns at the
kubeconfig gate (dev-cli.py line 213) with no further command, prompt or
report: the guard `update_kubeconfig` is constantly false, so lines 216-308
are unreachable. -/
theorem rollback_release_always_aborts (w : World) (env : String)
    (rev : Option Int) (confirm : Bool) (henv : env ∈ valid_environments) :
    rollback_release w env rev confirm =
      (.bindFailed, [.cmdKubeconfig w.kubeconfigOk]) := by
  simp [rollback_release, update_kubeconfig, run_command_plain, henv]

/-- On an invalid environment `rollback_release` fails validation at once. -/
theorem rollback_release_invalid_env (w : World) (env : String)
    (rev : Option Int) (confirm : Bool) (henv : env ∉ valid_environments) :
    rollback_release w env rev confirm =
      (.invalidEnv, [.logError "Invalid environment"]) := by
  simp [rollback_release, henv]

/-! ## C1 -/

/-- C1. For every history H with at least 2 distinct revision numbers and no
explicit target (histories being unique by revision, the §3 data-model
invariant, expressed as `(revisions H).Nodup`), the revision-resolution step
of `rollback_release` selects as target the second-highest revision number in
H — there are a maximum `m` above it and nothing else above it — and that
target is exactly the revision of the entry at index 1 of the descending
sort, not necessarily `currentRevision - 1`. -/
theorem C1_previous_is_second_highest (H : List RevisionRecord)
    (hnd : (revisions H).Nodup) (h2 : 2 ≤ ((revisions H).dedup).length) :
    ∃ t m, resolveTarget H none = .ok t ∧
      t ∈ revisions H ∧ m ∈ revisions H ∧ t < m ∧
      (∀ x ∈ revisions H, x ≤ m) ∧
      (∀ x ∈ revisions H, x ≠ m → x ≤ t) ∧
      ((sortByRevisionDesc H)[1]?).map (·.revision) = some t := by
  rw [List.dedup_eq_self.mpr hnd] at h2
  have hlenH : 2 ≤ H.length := by
    simpa [revisions] using h2
  have hlenS : 2 ≤ (sortByRevisionDesc H).length := by
    rw [(sortByRevisionDesc_perm H).length_eq]; exact hlenH
  obtain ⟨a, b, rest, hs⟩ :
      ∃ a b rest, sortByRevisionDesc H = a :: b :: rest := by
    rcases hsl : sortByRevisionDesc H with _ | ⟨a, _ | ⟨b, rest⟩⟩ <;>
      simp [hsl] at hlenS ⊢
  have hsorted := sortByRevisionDesc_sorted H
  rw [hs] at hsorted
  obtain ⟨ha, hsorted'⟩ := List.sorted_cons.mp hsorted
  obtain ⟨hb, -⟩ := List.sorted_cons.mp hsorted'
  have hpermRev : List.Perm (revisions (a :: b :: rest)) (revisions H) := by
    have hp := (sortByRevisionDesc_perm H).map (fun x => x.revision)
    rw [hs] at hp
    exact hp
  have hmemiff : ∀ x : Int, x ∈ revisions H ↔
      x ∈ revisions (a :: b :: rest) := fun x => hpermRev.mem_iff.symm
  have hndS : (revisions (a :: b :: rest)).Nodup := hpermRev.nodup_iff.mpr hnd
  have hab : b.revision ≤ a.revision := ha b (by simp)
  have hne : a.revision ≠ b.revision := by
    have hcons : (a.revision :: b.revision :: (rest.map (·.revision))).Nodup := hndS
    intro h
    exact (List.nodup_cons.mp hcons).1 (by rw [h]; exact List.mem_cons_self _ _)
  refine ⟨b.revision, a.revision, ?_, ?_, ?_, lt_of_le_of_ne hab (fun h => hne h.symm), ?_, ?_, ?_⟩
  · have hH2 : ¬ H.length < 2 := by omega
    simp [resolveTarget, hH2, hs]
  · exact (hmemiff _).mpr (by simp [revisions])
  · exact (hmemiff _).mpr (by simp [revisions])
  · intro x hx
    rcases (hmemiff x).mp hx with hx'
    simp only [revisions, List.map_cons, List.mem_cons, List.mem_map] at hx'
    rcases hx' with h | h | ⟨y, hy, hyx⟩
    · exact le_of_eq h
    · exact h ▸ hab
    · exact hyx ▸ le_trans (ha y (by simp [hy])) le_rfl
  · intro x hx hxm
    rcases (hmemiff x).mp hx with hx'
    simp only [revisions, List.map_cons, List.mem_cons, List.mem_map] at hx'
    rcases hx' with h | h | ⟨y, hy, hyx⟩
    · exact absurd h hxm
    · exact le_of_eq h
    · exact hyx ▸ hb y hy
  · simp [hs]

/-- Concrete history with a revision gap (5, 3, 1): the hypotheses of
`C1_previous_is_second_highest` hold and the resolved target is the
second-highest revision 3, not `current - 1 = 4`. -/
def histGap : List RevisionRecord :=
  [⟨5, "d5", "t5"⟩, ⟨3, "d3", "t3"⟩, ⟨1, "d1", "t1"⟩]

/-- Witness for C1 at `histGap`. -/
theorem C1_witness :
    ((revisions histGap).Nodup ∧ 2 ≤ ((revisions histGap).dedup).length) ∧
    (∃ t m, resolveTarget histGap none = .ok t ∧
      t ∈ revisions histGap ∧ m ∈ revisions histGap ∧ t < m ∧
      (∀ x ∈ revisions histGap, x ≤ m) ∧
      (∀ x ∈ revisions histGap, x ≠ m → x ≤ t) ∧
      ((sortByRevisionDesc histGap)[1]?).map (·.revision) = some t) :=
  ⟨⟨by decide, by decide⟩,
    C1_previous_is_second_highest histGap (by decide) (by decide)⟩

/-! ## C2 -/

/-- C2. For every history H and explicit target r, the revision-resolution
step of `rollback_release` accepts r iff r is a member of the revision set of
H; on rejection the error carries exactly the list
`[h["revision"] for h in history]` (whose members are exactly H's revision
set); and no ordering constraint is imposed: in particular r is accepted even
when it exceeds any current revision. -/
theorem C2_explicit_membership (H : List RevisionRecord) (r : Int) :
    (r ∈ revisions H → resolveTarget H (some r) = .ok r) ∧
    (r ∉ revisions H →
      resolveTarget H (some r) = .error (.UnknownRevision r (revisions H))) ∧
    (∀ current : Int, current < r → r ∈ revisions H →
      resolveTarget H (some r) = .ok r) := by
  refine ⟨fun h => by simp [resolveTarget, h],
    fun h => by simp [resolveTarget, h],
    fun _ _ h => by simp [resolveTarget, h]⟩

/-- Witness for C2: on `[rev 1, rev 2]`, explicit 5 is rejected listing
`[1, 2]`, and explicit 2 is accepted although it exceeds a current revision
of 1. -/
theorem C2_witness :
    resolveTarget [⟨1, "d1", "t1"⟩, ⟨2, "d2", "t2"⟩] (some 5) =
      .error (.UnknownRevision 5 (revisions [⟨1, "d1", "t1"⟩, ⟨2, "d2", "t2"⟩])) ∧
    resolveTarget [⟨1, "d1", "t1"⟩, ⟨2, "d2", "t2"⟩] (some 2) = .ok 2 :=
  ⟨(C2_explicit_membership [⟨1, "d1", "t1"⟩, ⟨2, "d2", "t2"⟩] 5).2.1 (by decide),
   (C2_explicit_membership [⟨1, "d1", "t1"⟩, ⟨2, "d2", "t2"⟩] 2).2.2 1
     (by decide) (by decide)⟩

/-! ## C3 -/

/-- A history of two entries sharing the single revision number 3. -/
def histDupPair : List RevisionRecord := [⟨3, "a", "x"⟩, ⟨3, "b", "y"⟩]

/-- C3 counterexample. `histDupPair` has fewer than 2 distinct revision
numbers, yet with no explicit target the revision-resolution step selects
target 3 instead of failing with the no-prior-revision error: the code counts
history entries (`len(history) < 2`, line 240), not distinct revisions. -/
theorem C3_counterexample :
    ((revisions histDupPair).dedup).length < 2 ∧
    resolveTarget histDupPair none = .ok 3 ∧
    resolveTarget histDupPair none ≠ .error .NoPriorRevision := by
  refine ⟨by decide, rfl, fun h => ?_⟩
  rw [show resolveTarget histDupPair none = .ok 3 from rfl] at h
  exact Except.noConfusion h

/-- C3 as amended: for every history H with fewer than 2 entries (including
the empty history) and no explicit target, the revision-resolution step fails
with the no-prior-revision error. -/
theorem C3_short_history_fails (H : List RevisionRecord) (h : H.length < 2) :
    resolveTarget H none = .error .NoPriorRevision := by
  simp [resolveTarget, h]

/-- Witness for C3 at the empty and the one-entry history. -/
theorem C3_witness :
    resolveTarget [] none = .error .NoPriorRevision ∧
    resolveTarget [⟨1, "d1", "t1"⟩] none = .error .NoPriorRevision :=
  ⟨C3_short_history_fails [] (by decide),
   C3_short_history_fails [⟨1, "d1", "t1"⟩] (by decide)⟩

/-! ## C4 -/

/-- A history in which two entries share revision 5. -/
def histDupTriple : List RevisionRecord :=
  [⟨5, "a", "x"⟩, ⟨5, "b", "y"⟩, ⟨3, "c", "z"⟩]

/-- C4 counterexample. `histDupTriple` has two entries sharing revision 5,
yet revision resolution with no explicit target succeeds with target 5 (one
of the duplicates) instead of reporting a consistency violation. -/
theorem C4_counterexample :
    (¬ (revisions histDupTriple).Nodup) ∧
    resolveTarget histDupTriple none = .ok 5 := ⟨by decide, rfl⟩

/-- C4 as amended: duplicated revision numbers are not detected — for every
history H of at least 2 entries in which two entries share a revision number,
revision resolution with no explicit target silently returns the revision of
the entry at index 1 of the stable descending sort rather than failing. -/
theorem C4_duplicates_silently_picked (H : List RevisionRecord)
    (hdup : ¬ (revisions H).Nodup) (hlen : 2 ≤ H.length) :
    ∃ entry, (sortByRevisionDesc H)[1]? = some entry ∧
      resolveTarget H none = .ok entry.revision := by
  have hlenS : 2 ≤ (sortByRevisionDesc H).length := by
    rw [(sortByRevisionDesc_perm H).length_eq]; exact hlen
  obtain ⟨entry, heq⟩ : ∃ e, (sortByRevisionDesc H)[1]? = some e :=
    ⟨_, List.getElem?_eq_getElem (by omega)⟩
  have hH2 : ¬ H.length < 2 := by omega
  exact ⟨entry, heq, by simp [resolveTarget, hH2, heq]⟩

/-- Witness for C4 at `histDupTriple`. -/
theorem C4_witness :
    (¬ (revisions histDupTriple).Nodup) ∧ 2 ≤ histDupTriple.length ∧
    ∃ entry, (sortByRevisionDesc histDupTriple)[1]? = some entry ∧
      resolveTarget histDupTriple none = .ok entry.revision :=
  ⟨by decide, by decide,
   C4_duplicates_silently_picked histDupTriple (by decide) (by decide)⟩

/-! ## C8 -/

/-- C8. A cluster response that decodes to an empty pod item list makes
`get_pods` return the successful empty sequence, not a failure; and
`get_pods` fails exactly on a command/transport failure or an undecodable
body. -/
theorem C8_empty_items_is_success :
    get_pods (.decoded (some [])) = some [] ∧
    (∀ q, get_pods q = none ↔ q = .cmdFailed ∨ q = .parseFailed) := by
  refine ⟨rfl, fun q => ?_⟩
  cases q <;> simp [get_pods]

/-- Witness for C8: the failure cases of `get_pods`. -/
theorem C8_witness : get_pods PodsQueryResult.parseFailed = none :=
  (C8_empty_items_is_success.2 PodsQueryResult.parseFailed).mpr (Or.inr rfl)

/-! ## C9 -/

/-- C9. Pod selection in `tail_logs` with no explicit pod: a missing or empty
discovery result is the terminal "No pods found" error; exactly one pod is
auto-selected; with more than one pod the full `enumerate(pods)` list is
presented, a choice `i` with `0 <= i < len(pods)` selects `pods[i]` (so index
1 selects the second pod), and a non-integer / interrupted or out-of-range
input ends the operation without streaming. -/
theorem C9_pod_disambiguation :
    (∀ inp, selectPod none inp = (.noPods, []) ∧
      selectPod (some []) inp = (.noPods, [])) ∧
    (∀ (p : Pod) (inp : Option Int),
      selectPod (some [p]) inp = (.selected p.name, [])) ∧
    (∀ pods : List Pod, 2 ≤ pods.length →
      (∀ inp, (selectPod (some pods) inp).2 = pods.enum) ∧
      ((selectPod (some pods) none).1 = .cancelled ∧
        tail_logs_target (some pods) none none = none) ∧
      (∀ (i : Int) (p : Pod), 0 ≤ i → i < (pods.length : Int) →
        pods[i.toNat]? = some p →
        (selectPod (some pods) (some i)).1 = .selected p.name) ∧
      (∀ i : Int, i < 0 ∨ (pods.length : Int) ≤ i →
        (selectPod (some pods) (some i)).1 = .invalidSelection ∧
        tail_logs_target (some pods) none (some i) = none)) := by
  refine ⟨fun inp => ⟨rfl, rfl⟩, fun p inp => rfl, fun pods hlen => ?_⟩
  obtain ⟨p₀, p₁, rest, rfl⟩ : ∃ a b r, pods = a :: b :: r := by
    rcases pods with _ | ⟨a, _ | ⟨b, r⟩⟩
    · simp at hlen
    · simp at hlen
    · exact ⟨a, b, r, rfl⟩
  refine ⟨?_, ⟨rfl, rfl⟩, ?_, ?_⟩
  · intro inp
    cases inp with
    | none => rfl
    | some c =>
      simp only [selectPod]
      split
      · split <;> rfl
      · rfl
  · intro i p h0 hlt heq
    simp only [selectPod]
    rw [if_pos ⟨h0, hlt⟩, heq]
  · intro i hi
    have hneg : ¬ (0 ≤ i ∧ i < ((p₀ :: p₁ :: rest).length : Int)) := by omega
    constructor
    · simp only [selectPod]
      rw [if_neg hneg]
    · simp only [tail_logs_target, selectPod]
      rw [if_neg hneg]

/-- The three-pod discovery result of the spec scenario. -/
def pods3 : List Pod :=
  [⟨"pod-a", "Running"⟩, ⟨"pod-b", "Running"⟩, ⟨"pod-c", "Pending"⟩]

/-- Witness for C9: with 3 discovered pods, index 1 selects the second pod
and the full 3-entry enumeration is presented. -/
theorem C9_witness :
    (selectPod (some pods3) (some 1)).1 = .selected "pod-b" ∧
    (selectPod (some pods3) (some 1)).2 = pods3.enum :=
  ⟨(C9_pod_disambiguation.2.2 pods3 (by decide)).2.2.1 1 ⟨"pod-b", "Running"⟩
      (by decide) (by decide) (by decide),
   (C9_pod_disambiguation.2.2 pods3 (by decide)).1 (some 1)⟩

/-! ## C5 -/

/-- A run in which every external command succeeds and the user would
answer "y". -/
def wOK : World :=
  ⟨true, some [⟨"sample-app", 3⟩], some [⟨3, "d3", "t3"⟩, ⟨2, "d2", "t2"⟩],
    some "y", true, true, some [⟨"pod-1", "Running"⟩]⟩

/-- C5 (code bug: the success path is unreachable). The claim — a success
report (`Done` with final pod state) only after an invoked-and-successful
rollback command — describes the reporting structure written at dev-cli.py
lines 284-304, but that structure is dead code: `update_kubeconfig` returns
`run_command(...) is not None` on the non-capture `run_command`, which
returns `None` even when the aws command succeeds (line 59), so every run
returns at line 213. Concretely: at `wOK`, where every external command
succeeds and the answer is affirmative, the run still ends at the bind
gate — the trace contains no rollback command and no success report, and
the `Done` outcome the claim speaks of can never be produced. -/
theorem C5_success_report_unreachable :
    rollback_release wOK "dev" none false =
      (.bindFailed, [.cmdKubeconfig true]) := by decide

/-! ## C6 -/

/-- C6. When confirmation is not skipped (`confirm = false`) and the
interactive answer is non-affirmative (anything whose lower-casing is not
"y", or an interrupt), no `helm rollback` command ever appears in the trace,
and if the confirmation prompt was reached the run terminates as a
cancellation. In the program as it stands the prompt is itself dead code —
every run returns at the line 213 kubeconfig gate, see
`rollback_release_always_aborts` — so the no-rollback-command guarantee
holds outright for every execution and the cancellation clause holds
vacuously. -/
theorem C6_cancellation_before_rollback (w : World) (env : String)
    (rev : Option Int) (hna : affirmative w.confirmAnswer = false) :
    (∀ t ok, Event.cmdRollback t ok ∉ (rollback_release w env rev false).2) ∧
    (Event.promptConfirm ∈ (rollback_release w env rev false).2 →
      (rollback_release w env rev false).1 = .cancelled) := by
  by_cases henv : env ∈ valid_environments
  · rw [rollback_release_always_aborts w env rev false henv]
    exact ⟨fun t ok => by simp, fun h => by simp at h⟩
  · rw [rollback_release_invalid_env w env rev false henv]
    exact ⟨fun t ok => by simp, fun h => by simp at h⟩

/-- A run whose interactive answer is "n". -/
def wNo : World :=
  ⟨true, some [⟨"sample-app", 3⟩], some [⟨3, "d3", "t3"⟩, ⟨2, "d2", "t2"⟩],
    some "n", true, true, some []⟩

/-- Witness for C6 at the answer "n". -/
theorem C6_witness :
    (∀ t ok, Event.cmdRollback t ok ∉ (rollback_release wNo "dev" none false).2) ∧
    (Event.promptConfirm ∈ (rollback_release wNo "dev" none false).2 →
      (rollback_release wNo "dev" none false).1 = .cancelled) :=
  C6_cancellation_before_rollback wNo "dev" none (by decide)

/-! ## C7 -/

/-- A run whose rollback command would succeed while the convergence wait
would fail. -/
def wSlow : World :=
  ⟨true, some [⟨"sample-app", 3⟩], some [⟨3, "d3", "t3"⟩, ⟨2, "d2", "t2"⟩],
    some "y", true, false, none⟩

/-- C7 (code bug: the claimed warning/error distinction never manifests).
The claim says a convergence-wait failure after a successful rollback
command is reported as a soft WARNING, distinguishable from the hard
"Rollback failed" ERROR of a failed rollback command. In the code, line 284
tests `self.run_command(command) is not None` on the non-capture
`run_command`, which is false even when `helm rollback` succeeds: the
convergence wait (lines 288-294) never runs and the hard ERROR is logged.
First conjunct: lines 280-308 evaluated at a run whose rollback command
succeeded (`wOK.rollbackOk = true`, recorded in the trace event) still end
in `rollbackFailed` with the hard ERROR — no wait, no warning. Second
conjunct: lines 280-308 are themselves unreachable, because the identical
check inside `update_kubeconfig` aborts every run at line 213. -/
theorem C7_hard_error_despite_success :
    executeRollback wOK 2 =
      (.rollbackFailed, [.cmdRollback 2 true, .logError "Rollback failed"]) ∧
    rollback_release wSlow "dev" none false =
      (.bindFailed, [.cmdKubeconfig true]) :=
  ⟨by decide, by decide⟩

/-! ## C10 -/

/-- C10. Whenever `rollback_release` invokes the `helm rollback` command,
the target passed to it is a member of the revision set of the history
fetched in the same invocation (first conjunct — the claim as stated over
the trace). It holds because the command is in fact never invoked (second
conjunct: every run returns at the line 213 kubeconfig gate before any
rollback), while the dataflow the claim reads off lines 244-259 and 281 is
the third conjunct: any target produced by the revision-resolution step —
the value line 281 would pass — is a member of the history it was resolved
from, on both the implicit (sorted-index-1) and the explicit
(membership-validated) path. -/
theorem C10_target_from_fetched_history (w : World) (env : String)
    (rev : Option Int) (confirm : Bool) :
    (∀ t ok, Event.cmdRollback t ok ∈ (rollback_release w env rev confirm).2 →
      ∃ hist, w.history = some hist ∧ t ∈ revisions hist) ∧
    (∀ t ok, Event.cmdRollback t ok ∉ (rollback_release w env rev confirm).2) ∧
    (∀ (hist : List RevisionRecord) (e : Option Int) (t : Int),
      resolveTarget hist e = .ok t → t ∈ revisions hist) := by
  have hno : ∀ t ok,
      Event.cmdRollback t ok ∉ (rollback_release w env rev confirm).2 := by
    intro t ok
    by_cases henv : env ∈ valid_environments
    · rw [rollback_release_always_aborts w env rev confirm henv]
      simp
    · rw [rollback_release_invalid_env w env rev confirm henv]
      simp
  exact ⟨fun t ok h => absurd h (hno t ok), hno,
    fun hist e t h => resolveTarget_mem hist e t h⟩

/-- Witness for C10: the resolver conjunct discharged at the concrete
history [3, 2] (the implicitly resolved target 2 is a member), and the
no-invocation conjunct at `wOK`. -/
theorem C10_witness :
    ((2 : Int) ∈ revisions [⟨3, "d3", "t3"⟩, ⟨2, "d2", "t2"⟩]) ∧
    (∀ t ok, Event.cmdRollback t ok ∉ (rollback_release wOK "dev" none false).2) :=
  ⟨(C10_target_from_fetched_history wOK "dev" none false).2.2
      [⟨3, "d3", "t3"⟩, ⟨2, "d2", "t2"⟩] none 2 (by rfl),
   (C10_target_from_fetched_history wOK "dev" none false).2.1⟩
